import Mathlib

/-!
Verification of the Solow-Swan growth model implementation
(`01-Macroeconomics/Code/solow_model.py`).

The core of the repository is the `SolowModel` class: five scalar
parameters (`s`, `delta`, `n`, `g`, `alpha`), a derived attribute
`lambda_factor = n + g + delta` assigned once in `__init__`, and four
pure methods (`production`, `capital_accumulation`, `steady_state`,
`plot_phase_data`).  We embed the class shallowly: Python floats are
modelled as real numbers, the float `**` operator as `Real.rpow`, and
NumPy arrays as lists mapped elementwise.

The source performs no parameter validation, and two of the spec claims
concern which errors are raised.  For those we additionally model the
error semantics of the two partial Python operators the methods use:
float division (raises `ZeroDivisionError` on a zero divisor) and float
power (raises `ZeroDivisionError` on `0.0 ** negative`, and returns a
complex number for a negative base with a non-integral exponent).
-/

noncomputable section

open Classical

/-- The `SolowModel` class.  Fields mirror the attributes assigned in
`__init__` (lines 18-24 of the source): the five constructor arguments
plus the derived dilution rate `lambda_factor`, which `__init__` stores
as `self.n + self.g + self.delta` and which every method reads back as
`self.lambda_factor`. -/
structure SolowModel where
  s : ℝ
  delta : ℝ
  n : ℝ
  g : ℝ
  alpha : ℝ
  lambda_factor : ℝ

/-- `SolowModel.__init__(s, delta, n, g, alpha)`: stores the five
arguments unchanged and computes `lambda_factor = n + g + delta` once.
It performs no validation and cannot fail. -/
def SolowModel.init (s delta n g alpha : ℝ) : SolowModel :=
  { s := s, delta := delta, n := n, g := g, alpha := alpha,
    lambda_factor := n + g + delta }

/-- `production(k)`: the Cobb-Douglas production function
`k ** self.alpha` (line 36), on a scalar capital level. -/
def SolowModel.production (m : SolowModel) (k : ℝ) : ℝ :=
  k ^ m.alpha

/-- `production` applied to a NumPy array of capital levels: the
broadcasting of `k ** self.alpha` acts elementwise, preserving length
and order. -/
def SolowModel.productionVec (m : SolowModel) (ks : List ℝ) : List ℝ :=
  ks.map m.production

/-- `capital_accumulation(k)`:
`self.s * self.production(k) - self.lambda_factor * k` (line 49). -/
def SolowModel.capital_accumulation (m : SolowModel) (k : ℝ) : ℝ :=
  m.s * m.production k - m.lambda_factor * k

/-- `steady_state()`:
`(self.s / self.lambda_factor) ** (1 / (1 - self.alpha))` (line 58),
read with the total real-valued semantics of `/` and `Real.rpow`. -/
def SolowModel.steady_state (m : SolowModel) : ℝ :=
  (m.s / m.lambda_factor) ^ (1 / (1 - m.alpha))

/-- `plot_phase_data(k_values)` (lines 60-72): the pair of arrays
`invest = self.s * self.production(k_values)` and
`break_even = self.lambda_factor * k_values`, where the scalar
multiplications broadcast elementwise over the array. -/
def SolowModel.plot_phase_data (m : SolowModel) (k_values : List ℝ) :
    List ℝ × List ℝ :=
  (k_values.map (fun k => m.s * m.production k),
   k_values.map (fun k => m.lambda_factor * k))

namespace InteractivePhaseDiagram

/-- The model construction performed by the slider callback `update`
inside `interactive_phase_diagram` (lines 124-134): it reads the five
current slider values and builds a brand-new `SolowModel` instance via
the constructor; it never mutates the previous instance. -/
def update (s delta n g alpha : ℝ) : SolowModel :=
  SolowModel.init s delta n g alpha

end InteractivePhaseDiagram

/-- Error kinds relevant to the error-handling claims: the
`ZeroDivisionError` that Python itself raises, plus the two error kinds
named by the specification (`DegenerateDilutionError`,
`InvalidShareError`), which do not occur anywhere in the source. -/
inductive PyErr where
  | zeroDivisionError
  | degenerateDilutionError
  | invalidShareError
deriving DecidableEq

/-- Result of a Python float arithmetic expression: a float (modelled as
a real) or, for a negative base raised to a non-integral power, a
complex number. -/
inductive PyVal where
  | real (x : ℝ)
  | complex (z : ℂ)

/-- Python float division `x / y`: raises `ZeroDivisionError` when the
divisor is zero, otherwise returns the quotient. -/
def pyDiv (x y : ℝ) : Except PyErr ℝ :=
  if y = 0 then .error .zeroDivisionError else .ok (x / y)

/-- Python float power `x ** y`: raises `ZeroDivisionError` for
`0.0 ** negative`; returns the principal complex power for a negative
base with a non-integral exponent; otherwise returns the real power
(which agrees with `Real.rpow` on every remaining case, including a
negative base with an integral exponent). -/
def pyPow (x y : ℝ) : Except PyErr PyVal :=
  if x = 0 ∧ y < 0 then .error .zeroDivisionError
  else if x < 0 ∧ ¬ (∃ i : ℤ, (i : ℝ) = y) then
    .ok (.complex ((x : ℂ) ^ (y : ℂ)))
  else .ok (.real (x ^ y))

/-- `production(k)` with Python error semantics: the body is the single
expression `k ** self.alpha`. -/
def SolowModel.productionPy (m : SolowModel) (k : ℝ) : Except PyErr PyVal :=
  pyPow k m.alpha

/-- `steady_state()` with Python error semantics: evaluates
`self.s / self.lambda_factor`, then `1 / (1 - self.alpha)`, then the
power, propagating the first exception raised. -/
def SolowModel.steady_statePy (m : SolowModel) : Except PyErr PyVal :=
  match pyDiv m.s m.lambda_factor with
  | .error e => .error e
  | .ok base =>
    match pyDiv 1 (1 - m.alpha) with
    | .error e => .error e
    | .ok expo => pyPow base expo

/-! ### Helper lemmas -/

/-- `pyDiv` only ever raises `ZeroDivisionError`. -/
theorem pyDiv_error_eq {x y : ℝ} {e : PyErr} (h : pyDiv x y = .error e) :
    e = PyErr.zeroDivisionError := by
  unfold pyDiv at h
  split at h
  · exact (Except.error.injEq _ _).mp h |>.symm
  · exact absurd h (by simp)

/-- `pyPow` only ever raises `ZeroDivisionError`. -/
theorem pyPow_error_eq {x y : ℝ} {e : PyErr} (h : pyPow x y = .error e) :
    e = PyErr.zeroDivisionError := by
  unfold pyPow at h
  split at h
  · exact (Except.error.injEq _ _).mp h |>.symm
  · split at h <;> exact absurd h (by simp)

/-- `steady_state()` can only ever raise `ZeroDivisionError`: every
exception it propagates originates in `pyDiv` or `pyPow`. -/
theorem steady_statePy_error_eq {m : SolowModel} {e : PyErr}
    (h : m.steady_statePy = .error e) : e = PyErr.zeroDivisionError := by
  unfold SolowModel.steady_statePy at h
  split at h
  · rename_i e1 heq
    injection h with h2
    subst h2
    exact pyDiv_error_eq heq
  · rename_i base heq
    split at h
    · rename_i e2 heq2
      injection h with h2
      subst h2
      exact pyDiv_error_eq heq2
    · rename_i expo heq3
      exact pyPow_error_eq h

/-- Dividing by zero raises. -/
theorem pyDiv_zero (x : ℝ) : pyDiv x 0 = .error PyErr.zeroDivisionError := by
  simp [pyDiv]

/-- Division by a nonzero divisor returns the real quotient. -/
theorem pyDiv_ok {y : ℝ} (x : ℝ) (h : y ≠ 0) : pyDiv x y = .ok (x / y) := by
  simp [pyDiv, h]

/-- A positive base raised to any real power returns the real `rpow`. -/
theorem pyPow_of_pos {x : ℝ} (y : ℝ) (h : 0 < x) :
    pyPow x y = .ok (.real (x ^ y)) := by
  unfold pyPow
  rw [if_neg (by rintro ⟨rfl, -⟩; exact lt_irrefl 0 h),
    if_neg (by rintro ⟨h2, -⟩; exact absurd h (not_lt.mpr h2.le))]

/-- Zero raised to a negative power raises `ZeroDivisionError`. -/
theorem pyPow_zero_neg {y : ℝ} (h : y < 0) :
    pyPow 0 y = .error PyErr.zeroDivisionError := by
  unfold pyPow
  rw [if_pos ⟨rfl, h⟩]

end

/-! ### Claim theorems -/

/-- Claim C5: for every parameter set and every capital level `k`,
`capital_accumulation(k)` returns exactly
`s * production(k) - lambda_factor * k`, a signed real; the embedding is
a pure function, so the call has no side effects. -/
theorem capital_accumulation_formula (m : SolowModel) (k : ℝ) :
    m.capital_accumulation k = m.s * m.production k - m.lambda_factor * k :=
  rfl

/-- Claim C7: `plot_phase_data` maps a domain of `m` capital levels to
two sequences of length exactly `m` (two empty sequences when the domain
is empty), with `invest[i] = s * production(kValues[i])` and
`break_even[i] = lambda_factor * kValues[i]` at every index. -/
theorem plot_phase_data_lengths_and_values (m : SolowModel) (kValues : List ℝ) :
    m.plot_phase_data [] = ([], []) ∧
    (m.plot_phase_data kValues).1.length = kValues.length ∧
    (m.plot_phase_data kValues).2.length = kValues.length ∧
    ∀ i : ℕ,
      (m.plot_phase_data kValues).1[i]? =
        kValues[i]?.map (fun k => m.s * m.production k) ∧
      (m.plot_phase_data kValues).2[i]? =
        kValues[i]?.map (fun k => m.lambda_factor * k) := by
  refine ⟨rfl, ?_, ?_, fun i => ⟨?_, ?_⟩⟩ <;>
    simp [SolowModel.plot_phase_data]

/-- Claim C9: `__init__` stores the five parameters unchanged and
derives `lambda_factor = n + g + delta` at construction; the interactive
`update` callback realises a parameter change only by constructing a new
instance through the same constructor, so the derived field can never go
stale.  (No operation of the embedding mutates a model: all are pure
functions out of `SolowModel`.) -/
theorem lambda_factor_invariant (s delta n g alpha : ℝ) :
    (SolowModel.init s delta n g alpha).lambda_factor = n + g + delta ∧
    (SolowModel.init s delta n g alpha).s = s ∧
    (SolowModel.init s delta n g alpha).delta = delta ∧
    (SolowModel.init s delta n g alpha).n = n ∧
    (SolowModel.init s delta n g alpha).g = g ∧
    (SolowModel.init s delta n g alpha).alpha = alpha ∧
    InteractivePhaseDiagram.update s delta n g alpha =
      SolowModel.init s delta n g alpha :=
  ⟨rfl, rfl, rfl, rfl, rfl, rfl, rfl⟩

/-- Claim C6: for `alpha` in `(0,1)`, `production(k)` is exactly
`k ^ alpha` with `production(0) = 0` and `production(1) = 1`; applied to
an ordered sequence it yields the elementwise outputs, same length, same
order. -/
theorem production_pointwise_and_vectorized (m : SolowModel)
    (h0 : 0 < m.alpha) (_h1 : m.alpha < 1) :
    (∀ k : ℝ, 0 ≤ k → m.production k = k ^ m.alpha) ∧
    m.production 0 = 0 ∧
    m.production 1 = 1 ∧
    ∀ ks : List ℝ,
      (m.productionVec ks).length = ks.length ∧
      ∀ i : ℕ, (m.productionVec ks)[i]? = ks[i]?.map m.production := by
  refine ⟨fun k _ => rfl, Real.zero_rpow (ne_of_gt h0), Real.one_rpow _,
    fun ks => ⟨?_, fun i => ?_⟩⟩ <;> simp [SolowModel.productionVec]

/-- Witness for C6 at the default parameter set (`alpha = 0.33`). -/
theorem production_pointwise_and_vectorized_witness :
    (SolowModel.init 0.3 0.05 0.02 0.02 0.33).production 0 = 0 ∧
    (SolowModel.init 0.3 0.05 0.02 0.02 0.33).production 1 = 1 := by
  have h := production_pointwise_and_vectorized
    (SolowModel.init 0.3 0.05 0.02 0.02 0.33)
    (by norm_num [SolowModel.init]) (by norm_num [SolowModel.init])
  exact ⟨h.2.1, h.2.2.1⟩

/-- Claim C1 (counterexample): at `delta = n = g = 0` (so
`lambda_factor = 0`) the source raises Python's `ZeroDivisionError` from
`self.s / self.lambda_factor`; no `DegenerateDilutionError` exists in
the code, so the claimed error kind is not the one raised. -/
theorem steady_state_zero_dilution_counterexample :
    (SolowModel.init 0.3 0 0 0 0.33).lambda_factor ≤ 0 ∧
    (SolowModel.init 0.3 0 0 0 0.33).steady_statePy =
      .error PyErr.zeroDivisionError ∧
    (Except.error PyErr.zeroDivisionError : Except PyErr PyVal) ≠
      .error PyErr.degenerateDilutionError := by
  refine ⟨by norm_num [SolowModel.init], ?_, by simp⟩
  have hl : (SolowModel.init 0.3 0 0 0 0.33).lambda_factor = 0 := by
    norm_num [SolowModel.init]
  unfold SolowModel.steady_statePy
  rw [hl, pyDiv_zero]

/-- Claim C1 (amended): whenever `lambda_factor = 0`, `steady_state()`
fails explicitly with Python's `ZeroDivisionError` (so it never returns
`Infinity` or `NaN` there), though not with the spec's
`DegenerateDilutionError`; and for `lambda_factor < 0` with a
non-integral exponent the source instead returns a complex number
without raising at all. -/
theorem steady_state_zero_dilution_raises (m : SolowModel)
    (h : m.lambda_factor = 0) :
    m.steady_statePy = .error PyErr.zeroDivisionError := by
  unfold SolowModel.steady_statePy
  rw [h, pyDiv_zero]

/-- Witness for the amended C1 at `s = 0.2`, `delta = n = g = 0`. -/
theorem steady_state_zero_dilution_raises_witness :
    (SolowModel.init 0.2 0 0 0 0.5).steady_statePy =
      .error PyErr.zeroDivisionError :=
  steady_state_zero_dilution_raises _ (by norm_num [SolowModel.init])

/-- Claim C2 (counterexample): with `alpha = 2`, far outside `(0,1)`,
construction stores the value unchanged and both `production` and
`steady_state` return ordinary values; no `InvalidShareError` (which
does not exist in the code) is ever surfaced. -/
theorem invalid_share_counterexample :
    (SolowModel.init 0.3 0.05 0.02 0.02 2).alpha = 2 ∧
    (SolowModel.init 0.3 0.05 0.02 0.02 2).productionPy 2 =
      .ok (.real 4) ∧
    (SolowModel.init 0.3 0.05 0.02 0.02 2).steady_statePy =
      .ok (.real (3 / 10)) := by
  have h4 : (2 : ℝ) ^ (2 : ℝ) = 4 := by
    norm_num
  refine ⟨rfl, ?_, ?_⟩
  · unfold SolowModel.productionPy
    have ha : (SolowModel.init 0.3 0.05 0.02 0.02 2).alpha = 2 := rfl
    rw [ha, pyPow_of_pos _ (by norm_num : (0:ℝ) < 2), h4]
  · unfold SolowModel.steady_statePy
    have hl : (SolowModel.init 0.3 0.05 0.02 0.02 2).lambda_factor =
        0.09 := by norm_num [SolowModel.init]
    have hs : (SolowModel.init 0.3 0.05 0.02 0.02 2).s = 0.3 := rfl
    have ha : (SolowModel.init 0.3 0.05 0.02 0.02 2).alpha = 2 := rfl
    rw [hl, hs, ha, pyDiv_ok _ (by norm_num : (0.09:ℝ) ≠ 0),
      pyDiv_ok _ (by norm_num : (1:ℝ) - 2 ≠ 0)]
    show pyPow (0.3 / 0.09) (1 / (1 - 2)) = _
    rw [pyPow_of_pos _ (by norm_num : (0:ℝ) < 0.3 / 0.09),
      show (1:ℝ) / (1 - 2) = -1 from by norm_num, Real.rpow_neg_one]
    norm_num

/-- Claim C2 (amended): `alpha` outside `(0,1)` is silently accepted:
the constructor stores it unchanged and neither `production` nor
`steady_state` can ever surface an `InvalidShareError` (the only
exception either can raise is Python's `ZeroDivisionError`). -/
theorem invalid_share_never_raised (s delta n g alpha k : ℝ) :
    (SolowModel.init s delta n g alpha).alpha = alpha ∧
    (SolowModel.init s delta n g alpha).productionPy k ≠
      .error PyErr.invalidShareError ∧
    (SolowModel.init s delta n g alpha).steady_statePy ≠
      .error PyErr.invalidShareError := by
  refine ⟨rfl, fun h => ?_, fun h => ?_⟩
  · unfold SolowModel.productionPy at h
    exact PyErr.noConfusion (pyPow_error_eq h)
  · exact PyErr.noConfusion (steady_statePy_error_eq h)

/-- Witness for the amended C2 at `alpha = 2`. -/
theorem invalid_share_never_raised_witness :
    (SolowModel.init 0.3 0.05 0.02 0.02 2).productionPy 1 ≠
      .error PyErr.invalidShareError ∧
    (SolowModel.init 0.3 0.05 0.02 0.02 2).steady_statePy ≠
      .error PyErr.invalidShareError :=
  ⟨(invalid_share_never_raised 0.3 0.05 0.02 0.02 2 1).2.1,
   (invalid_share_never_raised 0.3 0.05 0.02 0.02 2 1).2.2⟩

/-- Claim C3 (counterexample): at `s = 0`, `delta = 0.1`, `n = g = 0`,
`alpha = 2` the hypotheses `lambda_factor > 0` and `alpha ≠ 1` hold, yet
`steady_state()` does not return the closed-form value: the source
evaluates `0.0 ** (-1.0)` and raises `ZeroDivisionError`. -/
theorem steady_state_formula_counterexample :
    0 < (SolowModel.init 0 0.1 0 0 2).lambda_factor ∧
    (SolowModel.init 0 0.1 0 0 2).alpha ≠ 1 ∧
    (SolowModel.init 0 0.1 0 0 2).steady_statePy =
      .error PyErr.zeroDivisionError := by
  refine ⟨by norm_num [SolowModel.init], by norm_num [SolowModel.init], ?_⟩
  unfold SolowModel.steady_statePy
  have hl : (SolowModel.init 0 0.1 0 0 2).lambda_factor = 0.1 := by
    norm_num [SolowModel.init]
  have hs : (SolowModel.init 0 0.1 0 0 2).s = 0 := rfl
  have ha : (SolowModel.init 0 0.1 0 0 2).alpha = 2 := rfl
  rw [hl, hs, ha, pyDiv_ok _ (by norm_num : (0.1:ℝ) ≠ 0),
    pyDiv_ok _ (by norm_num : (1:ℝ) - 2 ≠ 0)]
  show pyPow (0 / 0.1) (1 / (1 - 2)) = _
  rw [show (0:ℝ) / 0.1 = 0 from by norm_num]
  exact pyPow_zero_neg (by norm_num)

/-- Claim C3 (amended): for every parameter set with `s > 0`,
`lambda_factor > 0` and `alpha ≠ 1`, `steady_state()` returns exactly
`(s / lambda_factor) ^ (1 / (1 - alpha))`. -/
theorem steady_state_formula (m : SolowModel) (hs : 0 < m.s)
    (hl : 0 < m.lambda_factor) (ha : m.alpha ≠ 1) :
    m.steady_statePy =
      .ok (.real ((m.s / m.lambda_factor) ^ (1 / (1 - m.alpha)))) := by
  unfold SolowModel.steady_statePy
  rw [pyDiv_ok _ (ne_of_gt hl), pyDiv_ok _ (sub_ne_zero.mpr (Ne.symm ha))]
  exact pyPow_of_pos _ (div_pos hs hl)

/-- Witness for the amended C3 at the spec's Scenario 2 parameter set. -/
theorem steady_state_formula_witness :
    (SolowModel.init 0.5 0.1 0 0 0.5).steady_statePy =
      .ok (.real (((SolowModel.init 0.5 0.1 0 0 0.5).s /
        (SolowModel.init 0.5 0.1 0 0 0.5).lambda_factor) ^
        (1 / (1 - (SolowModel.init 0.5 0.1 0 0 0.5).alpha)))) :=
  steady_state_formula _ (by norm_num [SolowModel.init])
    (by norm_num [SolowModel.init]) (by norm_num [SolowModel.init])

/-- Claim C4: for `s > 0`, `lambda_factor > 0` and `0 < alpha < 1`, the
closed-form `steady_state()` is positive, the accumulation rate
vanishes exactly there, and it is the unique positive rest point of the
dynamics. -/
theorem steady_state_unique_rest_point (m : SolowModel) (hs : 0 < m.s)
    (hl : 0 < m.lambda_factor) (_ha0 : 0 < m.alpha) (ha1 : m.alpha < 1) :
    0 < m.steady_state ∧
    m.capital_accumulation m.steady_state = 0 ∧
    ∀ k : ℝ, 0 < k → m.capital_accumulation k = 0 → k = m.steady_state := by
  have hb : 0 < m.s / m.lambda_factor := div_pos hs hl
  have hlne : m.lambda_factor ≠ 0 := ne_of_gt hl
  have h1a : (0:ℝ) < 1 - m.alpha := by linarith
  have hne : (1:ℝ) - m.alpha ≠ 0 := ne_of_gt h1a
  have hsplit : 1 / (1 - m.alpha) = (1 / (1 - m.alpha)) * m.alpha + 1 := by
    field_simp
  have hpow : (m.s / m.lambda_factor) ^ (1 / (1 - m.alpha)) =
      (m.s / m.lambda_factor) ^ ((1 / (1 - m.alpha)) * m.alpha) *
        (m.s / m.lambda_factor) := by
    nth_rewrite 1 [hsplit]
    rw [Real.rpow_add hb, Real.rpow_one]
  have hlbs : m.lambda_factor * (m.s / m.lambda_factor) = m.s := by
    field_simp
  refine ⟨Real.rpow_pos_of_pos hb _, ?_, ?_⟩
  · show m.s * ((m.s / m.lambda_factor) ^ (1 / (1 - m.alpha))) ^ m.alpha -
      m.lambda_factor * (m.s / m.lambda_factor) ^ (1 / (1 - m.alpha)) = 0
    rw [← Real.rpow_mul hb.le, hpow]
    set X := (m.s / m.lambda_factor) ^ ((1 / (1 - m.alpha)) * m.alpha)
      with hX
    calc m.s * X - m.lambda_factor * (X * (m.s / m.lambda_factor))
        = m.s * X - m.lambda_factor * (m.s / m.lambda_factor) * X := by
          ring
      _ = m.s * X - m.s * X := by rw [hlbs]
      _ = 0 := by ring
  · intro k hk hck
    have hkα : (0:ℝ) < k ^ m.alpha := Real.rpow_pos_of_pos hk _
    have h1 : m.s * k ^ m.alpha = m.lambda_factor * k := by
      unfold SolowModel.capital_accumulation SolowModel.production at hck
      linarith
    have hks : k = k ^ m.alpha * k ^ (1 - m.alpha) := by
      rw [← Real.rpow_add hk,
        show m.alpha + (1 - m.alpha) = (1:ℝ) from by ring, Real.rpow_one]
    have h3 : m.s * k ^ m.alpha =
        (m.lambda_factor * k ^ (1 - m.alpha)) * k ^ m.alpha := by
      nth_rewrite 2 [hks] at h1
      linear_combination h1
    have h4 : m.s = m.lambda_factor * k ^ (1 - m.alpha) :=
      mul_right_cancel₀ (ne_of_gt hkα) h3
    have h2 : k ^ (1 - m.alpha) = m.s / m.lambda_factor := by
      rw [h4]
      exact (mul_div_cancel_left₀ _ hlne).symm
    calc k = (k ^ (1 - m.alpha)) ^ (1 / (1 - m.alpha)) := by
          rw [← Real.rpow_mul hk.le,
            show (1 - m.alpha) * (1 / (1 - m.alpha)) = (1:ℝ) from by
              field_simp, Real.rpow_one]
      _ = (m.s / m.lambda_factor) ^ (1 / (1 - m.alpha)) := by rw [h2]
      _ = m.steady_state := rfl

/-- Witness for C4 at the spec's Scenario 2 parameter set. -/
theorem steady_state_unique_rest_point_witness :
    0 < (SolowModel.init 0.5 0.1 0 0 0.5).steady_state ∧
    (SolowModel.init 0.5 0.1 0 0 0.5).capital_accumulation
      (SolowModel.init 0.5 0.1 0 0 0.5).steady_state = 0 := by
  have h := steady_state_unique_rest_point
    (SolowModel.init 0.5 0.1 0 0 0.5) (by norm_num [SolowModel.init])
    (by norm_num [SolowModel.init]) (by norm_num [SolowModel.init])
    (by norm_num [SolowModel.init])
  exact ⟨h.1, h.2.1⟩

/-- Claim C8: with `s > 0`, `lambda_factor > 0`, `0 < alpha < 1`, the
steady state is strictly increasing in `s` at fixed `lambda_factor` and
`alpha`, and strictly decreasing in `lambda_factor` at fixed `s` and
`alpha`. -/
theorem steady_state_monotonicity (m1 m2 m3 m4 : SolowModel) :
    (0 < m1.s → 0 < m1.lambda_factor → 0 < m1.alpha → m1.alpha < 1 →
      m1.lambda_factor = m2.lambda_factor → m1.alpha = m2.alpha →
      m1.s < m2.s → m1.steady_state < m2.steady_state) ∧
    (0 < m3.s → 0 < m3.lambda_factor → 0 < m3.alpha → m3.alpha < 1 →
      m3.s = m4.s → m3.alpha = m4.alpha →
      m3.lambda_factor < m4.lambda_factor →
      m4.steady_state < m3.steady_state) := by
  constructor
  · intro hs hl _ha0 ha1 hll haa hss
    unfold SolowModel.steady_state
    rw [← hll, ← haa]
    exact Real.rpow_lt_rpow (div_nonneg hs.le hl.le)
      ((div_lt_div_iff_of_pos_right hl).mpr hss) (one_div_pos.mpr (by linarith))
  · intro hs hl _ha0 ha1 hss haa hll
    unfold SolowModel.steady_state
    rw [← hss, ← haa]
    exact Real.rpow_lt_rpow (div_nonneg hs.le (hl.trans hll).le)
      (div_lt_div_of_pos_left hs hl hll) (one_div_pos.mpr (by linarith))

/-- Witness for C8: raising `s` from `0.3` to `0.4` raises the steady
state; raising the dilution rate from `0.05` to `0.1` lowers it. -/
theorem steady_state_monotonicity_witness :
    (SolowModel.init 0.3 0.05 0.02 0.02 0.33).steady_state <
      (SolowModel.init 0.4 0.05 0.02 0.02 0.33).steady_state ∧
    (SolowModel.init 0.3 0.1 0 0 0.5).steady_state <
      (SolowModel.init 0.3 0.05 0 0 0.5).steady_state := by
  constructor
  · exact (steady_state_monotonicity
      (SolowModel.init 0.3 0.05 0.02 0.02 0.33)
      (SolowModel.init 0.4 0.05 0.02 0.02 0.33)
      (SolowModel.init 0.3 0.05 0 0 0.5)
      (SolowModel.init 0.3 0.1 0 0 0.5)).1
      (by norm_num [SolowModel.init]) (by norm_num [SolowModel.init])
      (by norm_num [SolowModel.init]) (by norm_num [SolowModel.init])
      (by norm_num [SolowModel.init]) (by norm_num [SolowModel.init])
      (by norm_num [SolowModel.init])
  · exact (steady_state_monotonicity
      (SolowModel.init 0.3 0.05 0.02 0.02 0.33)
      (SolowModel.init 0.4 0.05 0.02 0.02 0.33)
      (SolowModel.init 0.3 0.05 0 0 0.5)
      (SolowModel.init 0.3 0.1 0 0 0.5)).2
      (by norm_num [SolowModel.init]) (by norm_num [SolowModel.init])
      (by norm_num [SolowModel.init]) (by norm_num [SolowModel.init])
      (by norm_num [SolowModel.init]) (by norm_num [SolowModel.init])
      (by norm_num [SolowModel.init])

/-- Claim C10: the accumulation rate at any `k` is exactly the gap
between the two phase curves returned by `plot_phase_data` on the
singleton domain `[k]`, so the curves cross precisely at rest points. -/
theorem capital_accumulation_eq_phase_gap (m : SolowModel) (k : ℝ) :
    m.capital_accumulation k =
      (m.plot_phase_data [k]).1.headI - (m.plot_phase_data [k]).2.headI :=
  rfl
